import Mathlib

/-!
Verification development for the Supakeeper keep-alive engine.

The Python source is embedded shallowly:

* `ProjectConfig`, `Config` mirror `supakeeper/config.py`;
* `pingProject` mirrors `SupaKeeper._ping_project` (`supakeeper/keeper.py`),
  with the outcome of each network call supplied by an `AttemptEnv`
  environment and wall-clock time threaded explicitly in milliseconds
  (the Python code works with `time.time()` seconds and multiplies by
  1000; a sleep of `D` seconds advances the clock by `D * 1000`);
* `ping_all`, `send_notification` and `run_once` mirror the same-named
  methods of `SupaKeeper` (the thread-pool fan-out is modelled as a
  deterministic traversal that yields one result per enabled project);
* `daemonLoop` mirrors the wait loop of `Scheduler.run_daemon` together
  with `Scheduler._signal_handler` (`supakeeper/scheduler.py`).

Every probe interpreter also returns a trace of the external calls and
sleeps it performed, so that claims counting attempts, strategy
invocations and retry delays can be stated about the trace.
-/

/-- Character-level prefix test, the meaning of Python `str.startswith`. -/
def strStartsWith (s pre : String) : Bool :=
  pre.data.isPrefixOf s.data

/-- Substring search on character lists, the meaning of Python `pat in hay`. -/
def containsSubList (pat : List Char) : List Char → Bool
  | [] => pat.isPrefixOf []
  | c :: t => pat.isPrefixOf (c :: t) || containsSubList pat t

/-- Substring test on strings, the meaning of Python `pat in hay`. -/
def strContains (hay pat : String) : Bool :=
  containsSubList pat.data hay.data

/-- Python truthiness of an `Optional[str]`: `None` and `""` are falsy. -/
def truthyOpt : Option String → Bool
  | none => false
  | some s => s ≠ ""

/-- Mirror of dataclass `ProjectConfig` (config.py): one configured project. -/
structure ProjectConfig where
  name : String
  url : String
  key : String
  table : Option String
  enabled : Bool
deriving Repr, DecidableEq

/-- Mirror of `ProjectConfig.__post_init__` (config.py lines 27-34): the
validation error it would raise for the given field values, if any.
Checks run in source order: empty URL, then empty key, then non-https URL. -/
def postInitErr (p : ProjectConfig) : Option String :=
  if p.url = "" then some ("Project \x27" ++ p.name ++ "\x27: URL is required")
  else if p.key = "" then some ("Project \x27" ++ p.name ++ "\x27: API key is required")
  else if ¬ strStartsWith p.url "https://" then
    some ("Project \x27" ++ p.name ++ "\x27: URL must start with https://")
  else none

/-- Construction of a `ProjectConfig`: the dataclass constructor runs
`__post_init__`, so construction returns the error it raises, or the
fully initialised record. -/
def mkProjectConfig (name url key : String) (table : Option String)
    (enabled : Bool) : Except String ProjectConfig :=
  let p : ProjectConfig := ⟨name, url, key, table, enabled⟩
  match postInitErr p with
  | some e => Except.error e
  | none => Except.ok p

/-- Mirror of dataclass `Config` (config.py).  `interval_hours` is a Python
float compared only against 0 and 168, modelled as a rational;
`retry_attempts` and `retry_delay` are non-negative integers (a negative
`retry_attempts` makes `range` empty exactly like 0 does). -/
structure Config where
  projects : List ProjectConfig
  interval_hours : ℚ
  retry_attempts : Nat
  retry_delay : Nat
  webhook_url : Option String
deriving Repr, DecidableEq

/-- Mirror of `Config.get_enabled_projects` (config.py lines 110-112). -/
def Config.get_enabled_projects (cfg : Config) : List ProjectConfig :=
  cfg.projects.filter (fun p => p.enabled)

/-- Mirror of `Config.validate` (config.py lines 114-141): the list of
error strings, in the order the Python code appends them. -/
def Config.validate (cfg : Config) : List String :=
  (if cfg.projects = [] then ["No projects configured"] else []) ++
  (cfg.projects.filterMap postInitErr) ++
  (if cfg.interval_hours ≤ 0 then ["Interval hours must be positive"] else []) ++
  (if cfg.interval_hours > 168 then
    ["Warning: Interval exceeds 168 hours (7 days). Supabase pauses projects after 7 days of inactivity."]
   else [])

/-- Mirror of dataclass `PingResult` (keeper.py lines 23-35).  The
`timestamp` field (defaulted to `datetime.now()`) plays no role in any
claim and is omitted; `response_time_ms` is in integral milliseconds. -/
structure PingResult where
  project_name : String
  success : Bool
  message : String
  response_time_ms : Option Nat
deriving Repr, DecidableEq

/-- Outcome of one library call that either completes or raises. -/
inductive CallResult where
  | ok : CallResult
  | exn : String → CallResult
deriving Repr, DecidableEq

/-- Environment for one attempt of the probe strategy chain: what each of
the four strategy calls would do if executed, and how long (ms) each call
takes.  Strategy 4 either raises (`Except.error` with the exception text)
or returns an HTTP status code. -/
structure AttemptEnv where
  s1 : CallResult
  s1dur : Nat
  s2 : CallResult
  s2dur : Nat
  s3 : CallResult
  s3dur : Nat
  s4 : Except String Nat
  s4dur : Nat
deriving Repr

/-- Trace events of the probe chain: strategy calls (tagged with the
0-based attempt index) and retry-delay sleeps (tagged with the delay in
seconds). -/
inductive Event where
  | callS1 : Nat → Event
  | callS2 : Nat → Event
  | callS3 : Nat → Event
  | callS4 : Nat → Event
  | sleep : Nat → Event
deriving Repr, DecidableEq

def isCallS1 : Event → Bool | .callS1 _ => true | _ => false
def isCallS2 : Event → Bool | .callS2 _ => true | _ => false
def isCallS3 : Event → Bool | .callS3 _ => true | _ => false
def isCallS4 : Event → Bool | .callS4 _ => true | _ => false
def isSleepEv : Event → Bool | .sleep _ => true | _ => false

/-- Strategies 2-4 of one attempt (keeper.py lines 112-165), reached when
no probe table is configured (or the configured table name is falsy).
Exceptions of strategies 2 and 3 are swallowed and the chain proceeds;
strategy 4 succeeds exactly on status 200/401/403, any other status falls
through to `raise Exception("All ping strategies failed")`, and an
exception from the HTTP call itself propagates with its own text.
Returns the attempt result, the clock after the calls, and the trace. -/
def runStrategies234 (p : ProjectConfig) (a : AttemptEnv) (k start clock : Nat) :
    Except String PingResult × Nat × List Event :=
  let c2 := clock + a.s2dur
  match a.s2 with
  | CallResult.ok =>
      (Except.ok ⟨p.name, true, "Successfully queried auth.users table", some (c2 - start)⟩,
       c2, [Event.callS2 k])
  | CallResult.exn _ =>
    let c3 := c2 + a.s3dur
    match a.s3 with
    | CallResult.ok =>
        (Except.ok ⟨p.name, true, "Successfully checked auth session", some (c3 - start)⟩,
         c3, [Event.callS2 k, Event.callS3 k])
    | CallResult.exn _ =>
      let c4 := c3 + a.s4dur
      match a.s4 with
      | Except.ok code =>
          if code = 200 ∨ code = 401 ∨ code = 403 then
            (Except.ok ⟨p.name, true,
              "Successfully pinged REST API (status: " ++ toString code ++ ")",
              some (c4 - start)⟩, c4, [Event.callS2 k, Event.callS3 k, Event.callS4 k])
          else
            (Except.error "All ping strategies failed", c4,
             [Event.callS2 k, Event.callS3 k, Event.callS4 k])
      | Except.error m =>
          (Except.error m, c4, [Event.callS2 k, Event.callS3 k, Event.callS4 k])

/-- Strategy 1 of one attempt (keeper.py lines 102-110): the configured
probe table `t` is queried; success returns at once with the table
message, and an exception propagates to the retry handler (so strategies
2-4 are not reached on this attempt). -/
def runStrategy1 (p : ProjectConfig) (t : String) (a : AttemptEnv)
    (k start clock : Nat) : Except String PingResult × Nat × List Event :=
  let c1 := clock + a.s1dur
  match a.s1 with
  | CallResult.ok =>
      (Except.ok ⟨p.name, true,
        "Successfully queried table \x27" ++ t ++ "\x27", some (c1 - start)⟩,
       c1, [Event.callS1 k])
  | CallResult.exn m => (Except.error m, c1, [Event.callS1 k])

/-- One full attempt of the probe strategy chain (the body of the `try`
in keeper.py lines 98-165).  If `project.table` is truthy, strategy 1
alone decides the attempt: its success returns at once and its exception
propagates to the retry handler without running strategies 2-4. -/
def runAttempt (p : ProjectConfig) (a : AttemptEnv) (k start clock : Nat) :
    Except String PingResult × Nat × List Event :=
  match p.table with
  | some t =>
      if t = "" then runStrategies234 p a k start clock
      else runStrategy1 p t a k start clock
  | none => runStrategies234 p a k start clock

/-- The retry loop of `_ping_project` (keeper.py lines 97-188).  `fuel`
counts the remaining loop iterations (initially `R`), `k` is the current
0-based attempt index, `clock` the current time in ms.  On attempt
failure with `k < R - 1` the code sleeps `D` seconds and retries;
on the last attempt it returns the failure result carrying
`"Failed after {R} attempts: {e}"` and the elapsed time since `start`;
if the loop body never runs it returns the defensive fallback result of
keeper.py lines 184-188. -/
def pingLoop (p : ProjectConfig) (env : Nat → AttemptEnv) (R D start : Nat) :
    Nat → Nat → Nat → PingResult × Nat × List Event
  | 0, _, clock => (⟨p.name, false, "Unexpected error in ping logic", none⟩, clock, [])
  | fuel + 1, k, clock =>
    match runAttempt p (env k) k start clock with
    | (Except.ok res, clock2, tr) => (res, clock2, tr)
    | (Except.error e, clock2, tr) =>
      if k < R - 1 then
        let rest := pingLoop p env R D start fuel (k + 1) (clock2 + D * 1000)
        (rest.1, rest.2.1, tr ++ Event.sleep D :: rest.2.2)
      else
        (⟨p.name, false, "Failed after " ++ toString R ++ " attempts: " ++ e,
          some (clock2 - start)⟩, clock2, tr)

/-- Mirror of `SupaKeeper._ping_project` (keeper.py lines 80-188):
`start_time` is taken once before the retry loop and every
`response_time_ms` is measured from it. -/
def pingProject (p : ProjectConfig) (env : Nat → AttemptEnv) (R D start : Nat) :
    PingResult × Nat × List Event :=
  pingLoop p env R D start R 0 start

/-- A dispatched notification: the single call `_send_notification` makes,
either `send_failure_notification` with the failed results or
`send_success_notification` with all results (notifier.py lines 54-80). -/
inductive Notification where
  | failure : List PingResult → Notification
  | success : List PingResult → Notification
deriving Repr, DecidableEq

/-- Python attribute lookup on the `Config` dataclass of config.py for
the optional-string settings `SupaKeeper.__init__` reads: `webhook_url`
is a field of the dataclass (config.py line 47) and yields its value;
`telegram_bot_token` and `telegram_chat_id` are defined nowhere on
`Config` (fields are config.py lines 41-48, and `Config.load` sets no
others), so reading them raises `AttributeError`. -/
def configReadOptStr (cfg : Config) : String → Except String (Option String)
  | "webhook_url" => Except.ok cfg.webhook_url
  | attr =>
      Except.error ("AttributeError: \x27Config\x27 object has no attribute \x27"
        ++ attr ++ "\x27")

/-- Mirror of the notifier setup of `SupaKeeper.__init__` (keeper.py
lines 62-71) run against the `Config` of config.py, with Python's
evaluation order: `has_notifications` is
`config.webhook_url or (config.telegram_bot_token and config.telegram_chat_id)`
-- the right operand of `or` is evaluated only when the webhook is falsy,
and the truthiness of `x and y` is the conjunction of the operands'
truthiness.  When `has_notifications` is truthy, the `Notifier(...)`
call evaluates its keyword arguments, reading `webhook_url`,
`telegram_bot_token` and `telegram_chat_id` again (keeper.py lines
68-70).  Returns whether a notifier was constructed, or the text of the
exception the setup raises. -/
def supaKeeperInitNotifier (cfg : Config) : Except String Bool :=
  match configReadOptStr cfg "webhook_url" with
  | Except.error e => Except.error e
  | Except.ok webhook =>
    let has_notifications : Except String Bool :=
      if truthyOpt webhook then Except.ok true
      else
        match configReadOptStr cfg "telegram_bot_token" with
        | Except.error e => Except.error e
        | Except.ok tok =>
          match configReadOptStr cfg "telegram_chat_id" with
          | Except.error e => Except.error e
          | Except.ok chat => Except.ok (truthyOpt tok && truthyOpt chat)
    match has_notifications with
    | Except.error e => Except.error e
    | Except.ok true =>
      match configReadOptStr cfg "webhook_url" with
      | Except.error e => Except.error e
      | Except.ok _ =>
        match configReadOptStr cfg "telegram_bot_token" with
        | Except.error e => Except.error e
        | Except.ok _ =>
          match configReadOptStr cfg "telegram_chat_id" with
          | Except.error e => Except.error e
          | Except.ok _ => Except.ok true
    | Except.ok false => Except.ok false

/-- Mirror of `SupaKeeper._send_notification` (keeper.py lines 241-254):
returns the notification dispatched, or `none` when no notifier is
configured.  `failed_count` is computed exactly as in the source, as
`len(results)` minus the number of successes. -/
def send_notification (notifierConfigured : Bool) (results : List PingResult) :
    Option Notification :=
  if ¬ notifierConfigured then none
  else
    let success_count := (results.filter (fun r => r.success)).length
    let failed_count := results.length - success_count
    if failed_count > 0 then
      some (Notification.failure (results.filter (fun r => !r.success)))
    else
      some (Notification.success results)

/-- Probe every project of the list in order, giving project `i` (0-based
position) the attempt environments `env i`; each probe starts its own
clock at 0, as each worker calls `time.time()` itself.  This is the
deterministic model of the fan-out of `ping_all` (keeper.py lines
209-226): one `_ping_project` run, and hence one result, per project,
independent of every other project. -/
def pingEach (env : Nat → Nat → AttemptEnv) (R D : Nat) :
    List ProjectConfig → Nat → List (PingResult × Nat × List Event)
  | [], _ => []
  | p :: ps, i => pingProject p (env i) R D 0 :: pingEach env R D ps (i + 1)

/-- What one `ping_all` call produces: the returned results, the traces of
the probes it ran, and the notification dispatched (if any). -/
structure PingAllOut where
  results : List PingResult
  notif : Option Notification
  traces : List (List Event)
deriving Repr

/-- Mirror of `SupaKeeper.ping_all` (keeper.py lines 190-231): with no
enabled project it returns `[]` at once, before `_send_notification` is
reached; otherwise it probes every enabled project, then dispatches the
notification over the collected results. -/
def ping_all (cfg : Config) (env : Nat → Nat → AttemptEnv)
    (notifierConfigured : Bool) : PingAllOut :=
  let projects := cfg.get_enabled_projects
  if projects = [] then ⟨[], none, []⟩
  else
    let runs := pingEach env cfg.retry_attempts cfg.retry_delay projects 0
    let results := runs.map (fun r => r.1)
    ⟨results, send_notification notifierConfigured results,
     runs.map (fun r => r.2.2)⟩

/-- What one `run_once` call produces: the `(success_count, failed_count)`
summary, the probe traces, the notification dispatched, and whether the
cycle aborted early on the "No projects" validation error. -/
structure RunOnceOut where
  summary : Nat × Nat
  traces : List (List Event)
  notif : Option Notification
  abortedEarly : Bool
deriving Repr

/-- Mirror of `SupaKeeper.run_once` (keeper.py lines 256-284): validate,
return `(0, 0)` early if any validation error contains `"No projects"`,
else run `ping_all` and partition its results into the summary counts. -/
def run_once (cfg : Config) (env : Nat → Nat → AttemptEnv)
    (notifierConfigured : Bool) : RunOnceOut :=
  let errors := cfg.validate
  if errors.any (fun e => strContains e "No projects") then
    ⟨(0, 0), [], none, true⟩
  else
    let out := ping_all cfg env notifierConfigured
    let success_count := (out.results.filter (fun r => r.success)).length
    ⟨(success_count, out.results.length - success_count), out.traces, out.notif, false⟩

/-- External happenings during one iteration of the daemon wait loop
(scheduler.py lines 78-80): whether a termination signal was delivered
before this iteration's `while self._running` check, whether
`schedule.run_pending` finds a cycle due, and whether a signal is
delivered during the iteration (inside the running cycle or the
`time.sleep(60)` poll). -/
structure IterInput where
  sigBefore : Bool
  jobDue : Bool
  sigDuring : Bool
deriving Repr, DecidableEq

/-- A signal is received somewhere in the iteration. -/
def IterInput.signalled (inp : IterInput) : Bool :=
  inp.sigBefore || inp.sigDuring

/-- Observable events of the daemon wait loop: a cycle starting and
completing (tagged with the iteration index), and one polling sleep. -/
inductive SchedEv where
  | cycleStart : Nat → SchedEv
  | cycleEnd : Nat → SchedEv
  | sleepPoll : Nat → SchedEv
deriving Repr, DecidableEq

/-- Step relation of the daemon wait loop (scheduler.py lines 76-82) with
the signal handler (lines 41-44) folded in: a delivered signal only sets
the running flag to `false`; it never interrupts the loop body, so a
cycle in flight when a signal lands still emits its `cycleEnd`.  The loop
re-checks the flag once per iteration.  Returns the event trace, the
final value of the running flag, and the index at which the loop check
first failed (or `inputs.length` if it never did). -/
def daemonLoop : List IterInput → Bool → Nat → List SchedEv × Bool × Nat
  | [], running, i => ([], running, i)
  | inp :: rest, running, i =>
    let r1 := running && !inp.sigBefore
    if r1 then
      let evs := if inp.jobDue then [SchedEv.cycleStart i, SchedEv.cycleEnd i] else []
      let r2 := r1 && !inp.sigDuring
      let next := daemonLoop rest r2 (i + 1)
      (evs ++ SchedEv.sleepPoll i :: next.1, next.2.1, next.2.2)
    else
      ([], r1, i)

/-- Whether an `Except` value is a success. -/
def exceptOk {ε α : Type} : Except ε α → Bool
  | Except.ok _ => true
  | Except.error _ => false

/-- Every strategy of one attempt fails: strategies 2 and 3 raise, and
strategy 4 either raises or returns a status other than 200, 401, 403. -/
def attemptAllFail (a : AttemptEnv) : Prop :=
  (∃ m, a.s2 = CallResult.exn m) ∧ (∃ m, a.s3 = CallResult.exn m) ∧
  (∀ code, a.s4 = Except.ok code → ¬(code = 200 ∨ code = 401 ∨ code = 403))

/-- The message of a success `PingResult` names the strategy that
produced it: it is one of the four success messages `_ping_project`
builds, with the table message only available for the configured table. -/
def describesStrategy (p : ProjectConfig) (m : String) : Prop :=
  (∃ t, p.table = some t ∧ m = "Successfully queried table \x27" ++ t ++ "\x27") ∨
  m = "Successfully queried auth.users table" ∨
  m = "Successfully checked auth session" ∨
  (∃ code, (code = 200 ∨ code = 401 ∨ code = 403) ∧
    m = "Successfully pinged REST API (status: " ++ toString code ++ ")")

/-!  Concrete example data used by witnesses and counterexamples.  -/

/-- An attempt on which every strategy fails (strategy 4 raises). -/
def exAllFail : AttemptEnv :=
  ⟨CallResult.exn "x1", 5, CallResult.exn "x2", 5, CallResult.exn "x3", 5,
   Except.error "connection refused", 5⟩

/-- An attempt on which strategy 2 succeeds after 5 ms. -/
def exS2ok : AttemptEnv :=
  ⟨CallResult.exn "x1", 5, CallResult.ok, 5, CallResult.exn "x3", 5,
   Except.error "connection refused", 5⟩

/-- An attempt on which strategies 2 and 3 raise and strategy 4 answers
with HTTP status 500. -/
def exStatus500 : AttemptEnv :=
  ⟨CallResult.exn "x1", 5, CallResult.exn "x2", 5, CallResult.exn "x3", 5,
   Except.ok 500, 5⟩

/-- A valid project with no probe table. -/
def exProj : ProjectConfig := ⟨"Alpha", "https://alpha.supabase.co", "key-a", none, true⟩

/-- A second valid project with a distinct name. -/
def exProjB : ProjectConfig := ⟨"Beta", "https://beta.supabase.co", "key-b", none, true⟩

/-- A valid project sharing its name with `exProj`. -/
def exProjDup : ProjectConfig := ⟨"Alpha", "https://alpha2.supabase.co", "key-c", none, true⟩

/-- A valid but disabled project. -/
def exProjOff : ProjectConfig := ⟨"Gamma", "https://gamma.supabase.co", "key-g", none, false⟩

/-- An environment whose first attempt fails entirely and whose later
attempts succeed at strategy 2. -/
def envFirstFails : Nat → AttemptEnv := fun n => if n = 0 then exAllFail else exS2ok

/-- A configuration with two enabled projects of distinct names. -/
def exCfgAB : Config := ⟨[exProj, exProjB], 48, 1, 0, none⟩

/-- A configuration with two enabled projects that share the name
"Alpha". -/
def exCfgDup : Config := ⟨[exProj, exProjDup], 48, 1, 0, none⟩

/-- A configuration whose only project is disabled, with a webhook
notification channel configured. -/
def exCfgOff : Config := ⟨[exProjOff], 48, 3, 30, some "https://hook.example"⟩

/-!  General helper lemmas.  -/

/-- Dispatch: with no probe table the attempt is strategies 2-4. -/
lemma runAttempt_none (p : ProjectConfig) (a : AttemptEnv)
    (k start clock : Nat) (hp : p.table = none) :
    runAttempt p a k start clock = runStrategies234 p a k start clock := by
  rw [runAttempt, hp]

/-- Dispatch: with a truthy probe table the attempt is strategy 1. -/
lemma runAttempt_some (p : ProjectConfig) (a : AttemptEnv)
    (k start clock : Nat) (t : String) (hpt : p.table = some t)
    (ht : ¬ t = "") :
    runAttempt p a k start clock = runStrategy1 p t a k start clock := by
  rw [runAttempt, hpt]
  exact if_neg ht

/-- Dispatch: a falsy (empty) probe table behaves like no table. -/
lemma runAttempt_some_empty (p : ProjectConfig) (a : AttemptEnv)
    (k start clock : Nat) (hpt : p.table = some "") :
    runAttempt p a k start clock = runStrategies234 p a k start clock := by
  rw [runAttempt, hpt]
  exact if_pos rfl

/-- C8 helper: the construction unfolded into its three guard checks. -/
lemma mkProjectConfig_eq (name url key : String) (table : Option String)
    (enabled : Bool) :
    mkProjectConfig name url key table enabled =
      (if url = "" then Except.error ("Project \x27" ++ name ++ "\x27: URL is required")
       else if key = "" then Except.error ("Project \x27" ++ name ++ "\x27: API key is required")
       else if strStartsWith url "https://" = true then
         Except.ok ⟨name, url, key, table, enabled⟩
       else Except.error ("Project \x27" ++ name ++ "\x27: URL must start with https://")) := by
  simp only [mkProjectConfig, postInitErr]
  split_ifs <;> rfl

/-- C8: constructing a Target fails exactly when the endpoint URL is
empty, the credential key is empty, or the URL does not start with
`https://`; an empty credential always fails; and a successful
construction returns the record with exactly the given field values. -/
theorem C8_target_construction_validation (name url key : String)
    (table : Option String) (enabled : Bool) :
    (exceptOk (mkProjectConfig name url key table enabled) = false ↔
      (url = "" ∨ key = "" ∨ ¬ strStartsWith url "https://" = true)) ∧
    (key = "" → exceptOk (mkProjectConfig name url key table enabled) = false) ∧
    (∀ p, mkProjectConfig name url key table enabled = Except.ok p →
      p.name = name ∧ p.url = url ∧ p.key = key ∧ p.table = table ∧
        p.enabled = enabled) := by
  rw [mkProjectConfig_eq]
  refine ⟨?_, ?_, ?_⟩
  · split_ifs with h1 h2 h3
    · simp [exceptOk]
      exact Or.inl h1
    · simp [exceptOk]
      exact Or.inr (Or.inl h2)
    · simp [exceptOk, h1, h2, h3]
    · simp [exceptOk]
      refine Or.inr (Or.inr ?_)
      simpa using h3
  · intro hk
    split_ifs <;> rfl
  · intro p hp
    by_cases h1 : url = ""
    · rw [if_pos h1] at hp
      cases hp
    · rw [if_neg h1] at hp
      by_cases h2 : key = ""
      · rw [if_pos h2] at hp
        cases hp
      · rw [if_neg h2] at hp
        by_cases h3 : strStartsWith url "https://" = true
        · rw [if_pos h3] at hp
          cases hp
          exact ⟨rfl, rfl, rfl, rfl, rfl⟩
        · rw [if_neg h3] at hp
          cases hp

/-- C8 witness: a concrete valid construction and the instantiated
statement. -/
theorem C8_witness :
    (exceptOk (mkProjectConfig "Test Project" "https://test.supabase.co" "test-key-123" none true) = false ↔
      ("https://test.supabase.co" = "" ∨ "test-key-123" = "" ∨
        ¬ strStartsWith "https://test.supabase.co" "https://" = true)) ∧
    ("test-key-123" = "" →
      exceptOk (mkProjectConfig "Test Project" "https://test.supabase.co" "test-key-123" none true) = false) ∧
    (∀ p, mkProjectConfig "Test Project" "https://test.supabase.co" "test-key-123" none true = Except.ok p →
      p.name = "Test Project" ∧ p.url = "https://test.supabase.co" ∧
        p.key = "test-key-123" ∧ p.table = none ∧ p.enabled = true) :=
  C8_target_construction_validation "Test Project" "https://test.supabase.co"
    "test-key-123" none true

/-- C6: when validation reports zero configured targets, `run_once`
returns the `(0, 0)` summary, runs no probe (its trace list is empty) and
dispatches no notification. -/
theorem C6_zero_targets_aborts (cfg : Config) (env : Nat → Nat → AttemptEnv)
    (nc : Bool) (h : "No projects configured" ∈ cfg.validate) :
    (run_once cfg env nc).summary = (0, 0) ∧
    (run_once cfg env nc).traces = [] ∧
    (run_once cfg env nc).notif = none := by
  have hany : cfg.validate.any (fun e => strContains e "No projects") = true := by
    rw [List.any_eq_true]
    exact ⟨"No projects configured", h, by rfl⟩
  simp [run_once, hany]

/-- C6 witness: the empty configuration instantiates the theorem. -/
theorem C6_witness :
    ("No projects configured" ∈ (Config.mk [] 48 3 30 none).validate) ∧
    ((run_once (Config.mk [] 48 3 30 none) (fun _ _ => ⟨CallResult.ok, 1, CallResult.ok, 1, CallResult.ok, 1, Except.ok 200, 1⟩) false).summary = (0, 0) ∧
     (run_once (Config.mk [] 48 3 30 none) (fun _ _ => ⟨CallResult.ok, 1, CallResult.ok, 1, CallResult.ok, 1, Except.ok 200, 1⟩) false).traces = [] ∧
     (run_once (Config.mk [] 48 3 30 none) (fun _ _ => ⟨CallResult.ok, 1, CallResult.ok, 1, CallResult.ok, 1, Except.ok 200, 1⟩) false).notif = none) :=
  ⟨by decide,
   C6_zero_targets_aborts (Config.mk [] 48 3 30 none)
     (fun _ _ => ⟨CallResult.ok, 1, CallResult.ok, 1, CallResult.ok, 1, Except.ok 200, 1⟩)
     false (by decide)⟩

/-- C7 (code bug): the notification-channel test of `SupaKeeper.__init__`
cannot be reached intact: the `Config` dataclass defines neither
`telegram_bot_token` nor `telegram_chat_id`, so for every configuration
the notifier setup raises `AttributeError` on `telegram_bot_token` --
with a falsy webhook at the lookup of keeper.py line 65, and with a
truthy webhook at the `Notifier` keyword argument of line 69 -- before
any cycle, and hence any dispatch, can happen. -/
theorem C7_init_attribute_error (cfg : Config) :
    supaKeeperInitNotifier cfg =
      Except.error
        "AttributeError: \x27Config\x27 object has no attribute \x27telegram_bot_token\x27" := by
  by_cases h : truthyOpt cfg.webhook_url = true <;>
    simp [supaKeeperInitNotifier, configReadOptStr, h, Except.bind]

/-- Strategies 2-4 under total failure: the attempt errors, the clock
advances by the three call durations, and exactly one call of each of
strategies 2, 3, 4 is traced. -/
lemma runStrategies234_allFail (p : ProjectConfig) (a : AttemptEnv)
    (k start clock : Nat) (ha : attemptAllFail a) :
    ∃ e, runStrategies234 p a k start clock =
      (Except.error e, clock + a.s2dur + a.s3dur + a.s4dur,
       [Event.callS2 k, Event.callS3 k, Event.callS4 k]) := by
  obtain ⟨⟨m2, h2⟩, ⟨m3, h3⟩, h4⟩ := ha
  cases hs4 : a.s4 with
  | ok code =>
    refine ⟨"All ping strategies failed", ?_⟩
    have hbad := h4 code hs4
    simp [runStrategies234, h2, h3, hs4, hbad]
  | error m =>
    refine ⟨m, ?_⟩
    simp [runStrategies234, h2, h3, hs4]

/-- A full attempt under total failure, for a target with no probe table. -/
lemma runAttempt_allFail (p : ProjectConfig) (a : AttemptEnv)
    (k start clock : Nat) (hp : p.table = none) (ha : attemptAllFail a) :
    ∃ e, runAttempt p a k start clock =
      (Except.error e, clock + a.s2dur + a.s3dur + a.s4dur,
       [Event.callS2 k, Event.callS3 k, Event.callS4 k]) := by
  rw [runAttempt, hp]
  exact runStrategies234_allFail p a k start clock ha

/-- The retry loop under total failure of every attempt: the outcome is a
failure whose message counts all `R` attempts, each remaining attempt
runs strategies 2-4 exactly once, and one `D`-second sleep separates
consecutive attempts. -/
lemma pingLoop_allFail (p : ProjectConfig) (env : Nat → AttemptEnv)
    (R D start : Nat) (hp : p.table = none)
    (hf : ∀ k, attemptAllFail (env k)) :
    ∀ fuel k clock, 1 ≤ fuel → k + fuel = R →
      (pingLoop p env R D start fuel k clock).1.success = false ∧
      (∃ e, (pingLoop p env R D start fuel k clock).1.message =
        "Failed after " ++ toString R ++ " attempts: " ++ e) ∧
      (pingLoop p env R D start fuel k clock).2.2.countP isCallS2 = fuel ∧
      (pingLoop p env R D start fuel k clock).2.2.countP isCallS3 = fuel ∧
      (pingLoop p env R D start fuel k clock).2.2.countP isCallS4 = fuel ∧
      (pingLoop p env R D start fuel k clock).2.2.filter isSleepEv =
        List.replicate (fuel - 1) (Event.sleep D) := by
  intro fuel
  induction fuel with
  | zero => intro k clock h; omega
  | succ n ih =>
    intro k clock _ hkR
    obtain ⟨e, heq⟩ := runAttempt_allFail p (env k) k start clock hp (hf k)
    cases n with
    | zero =>
      have hklt : ¬ k < R - 1 := by omega
      simp [pingLoop, heq, hklt, List.countP_cons, isCallS2, isCallS3,
        isCallS4, isSleepEv, List.filter]
    | succ m =>
      have hklt : k < R - 1 := by omega
      have hrec := ih (k + 1) (clock + (env k).s2dur + (env k).s3dur +
        (env k).s4dur + D * 1000) (by omega) (by omega)
      simp only [pingLoop, heq, hklt, if_pos] at *
      refine ⟨hrec.1, hrec.2.1, ?_, ?_, ?_, ?_⟩
      · simp [List.countP_append, List.countP_cons, isCallS2, hrec.2.2.1]
      · simp [List.countP_append, List.countP_cons, isCallS3, hrec.2.2.2.1]
      · simp [List.countP_append, List.countP_cons, isCallS4, hrec.2.2.2.2.1]
      · rw [List.filter_append]
        simp only [List.filter, isSleepEv, isCallS2, isCallS3, isCallS4]
        rw [hrec.2.2.2.2.2]
        simp [List.replicate_succ]

/-- C1: for a target with no probe table whose strategies all fail on
every attempt and any retry count `R ≥ 1`, the probe chain returns a
failure outcome whose message reports exhaustion of all `R` attempts,
makes exactly `R` full passes over strategies 2-4, and sleeps exactly
`R - 1` retry delays of `D` seconds. -/
theorem C1_retry_exhaustion (p : ProjectConfig) (env : Nat → AttemptEnv)
    (R D start : Nat) (hp : p.table = none) (hR : 1 ≤ R)
    (hf : ∀ k, attemptAllFail (env k)) :
    (pingProject p env R D start).1.success = false ∧
    (∃ e, (pingProject p env R D start).1.message =
      "Failed after " ++ toString R ++ " attempts: " ++ e) ∧
    (pingProject p env R D start).2.2.countP isCallS2 = R ∧
    (pingProject p env R D start).2.2.countP isCallS3 = R ∧
    (pingProject p env R D start).2.2.countP isCallS4 = R ∧
    (pingProject p env R D start).2.2.filter isSleepEv =
      List.replicate (R - 1) (Event.sleep D) :=
  pingLoop_allFail p env R D start hp hf R 0 start hR (by omega)

/-- C1 witness: two attempts with every strategy failing, a 7-second
retry delay: failure after 2 attempts, 2 passes of strategies 2-4, and
one 7-second sleep. -/
theorem C1_witness :
    (pingProject exProj (fun _ => exAllFail) 2 7 0).1.success = false ∧
    (∃ e, (pingProject exProj (fun _ => exAllFail) 2 7 0).1.message =
      "Failed after " ++ toString 2 ++ " attempts: " ++ e) ∧
    (pingProject exProj (fun _ => exAllFail) 2 7 0).2.2.countP isCallS2 = 2 ∧
    (pingProject exProj (fun _ => exAllFail) 2 7 0).2.2.countP isCallS3 = 2 ∧
    (pingProject exProj (fun _ => exAllFail) 2 7 0).2.2.countP isCallS4 = 2 ∧
    (pingProject exProj (fun _ => exAllFail) 2 7 0).2.2.filter isSleepEv =
      List.replicate 1 (Event.sleep 7) :=
  C1_retry_exhaustion exProj (fun _ => exAllFail) 2 7 0 rfl (by omega)
    (fun _ => ⟨⟨"x2", rfl⟩, ⟨"x3", rfl⟩, fun code h => by cases h⟩)

/-- C3 (amended): with `retry_attempts = 0` the loop body of
`_ping_project` never executes: no strategy runs, and the defensive
fallback failure result of keeper.py lines 184-188 is returned with no
elapsed time. -/
theorem C3_zero_retries_no_attempt (p : ProjectConfig)
    (env : Nat → AttemptEnv) (D start : Nat) :
    pingProject p env 0 D start =
      (⟨p.name, false, "Unexpected error in ping logic", none⟩, start, []) :=
  rfl

/-- C3 counterexample to the claim as stated: with `R = 0` and an
environment whose strategy 2 would succeed at once, the probe chain
still executes no strategy at all (its trace is empty, with zero calls
of every strategy), contradicting "the strategy chain is executed at
least once"; a failure outcome with the fallback message is returned. -/
theorem C3_counterexample :
    (pingProject exProj (fun _ => exS2ok) 0 30 0).2.2 = [] ∧
    (pingProject exProj (fun _ => exS2ok) 0 30 0).2.2.countP isCallS1 = 0 ∧
    (pingProject exProj (fun _ => exS2ok) 0 30 0).2.2.countP isCallS2 = 0 ∧
    (pingProject exProj (fun _ => exS2ok) 0 30 0).2.2.countP isCallS3 = 0 ∧
    (pingProject exProj (fun _ => exS2ok) 0 30 0).2.2.countP isCallS4 = 0 ∧
    (pingProject exProj (fun _ => exS2ok) 0 30 0).1.success = false ∧
    (pingProject exProj (fun _ => exS2ok) 0 30 0).1.message =
      "Unexpected error in ping logic" :=
  ⟨rfl, rfl, rfl, rfl, rfl, rfl, rfl⟩

/-- C4: when an attempt reaches strategy 4 (no probe table, strategies 2
and 3 raise) and the HTTP call answers with status `code`, the attempt
succeeds exactly when `code` is 200, 401 or 403; otherwise the attempt
fails with "All ping strategies failed", and under such attempts the
whole chain reports a failure outcome. -/
theorem C4_strategy4_status (p : ProjectConfig) (a : AttemptEnv)
    (k start clock code : Nat) (hp : p.table = none)
    (h2 : ∃ m, a.s2 = CallResult.exn m) (h3 : ∃ m, a.s3 = CallResult.exn m)
    (h4 : a.s4 = Except.ok code) :
    (exceptOk (runAttempt p a k start clock).1 = true ↔
      (code = 200 ∨ code = 401 ∨ code = 403)) ∧
    (¬(code = 200 ∨ code = 401 ∨ code = 403) →
      (runAttempt p a k start clock).1 = Except.error "All ping strategies failed") ∧
    (∀ (env : Nat → AttemptEnv) (R D : Nat), 1 ≤ R → (∀ j, env j = a) →
      ¬(code = 200 ∨ code = 401 ∨ code = 403) →
      (pingProject p env R D clock).1.success = false) := by
  obtain ⟨m2, hm2⟩ := h2
  obtain ⟨m3, hm3⟩ := h3
  refine ⟨?_, ?_, ?_⟩
  · rw [runAttempt, hp]
    by_cases hc : code = 200 ∨ code = 401 ∨ code = 403
    · simp [runStrategies234, hm2, hm3, h4, hc, exceptOk]
    · simp [runStrategies234, hm2, hm3, h4, hc, exceptOk]
  · intro hc
    rw [runAttempt, hp]
    simp [runStrategies234, hm2, hm3, h4, hc]
  · intro env R D hR henv hc
    have hfail : ∀ j, attemptAllFail (env j) := by
      intro j
      rw [henv j]
      refine ⟨⟨m2, hm2⟩, ⟨m3, hm3⟩, ?_⟩
      intro c hcc
      rw [h4] at hcc
      cases hcc
      exact hc
    exact (pingLoop_allFail p env R D clock hp hfail R 0 clock hR (by omega)).1

/-- C4 witness: status 500 at strategy 4 is not a success, the attempt
errors with the chain-failure message, and a single-attempt chain under
that environment returns a failure outcome; instantiated together with
the success direction for status 401. -/
theorem C4_witness :
    ((exceptOk (runAttempt exProj exStatus500 0 0 0).1 = true ↔
       ((500 : Nat) = 200 ∨ (500 : Nat) = 401 ∨ (500 : Nat) = 403)) ∧
     (¬((500 : Nat) = 200 ∨ (500 : Nat) = 401 ∨ (500 : Nat) = 403) →
       (runAttempt exProj exStatus500 0 0 0).1 =
         Except.error "All ping strategies failed") ∧
     (∀ (env : Nat → AttemptEnv) (R D : Nat), 1 ≤ R →
       (∀ j, env j = exStatus500) →
       ¬((500 : Nat) = 200 ∨ (500 : Nat) = 401 ∨ (500 : Nat) = 403) →
       (pingProject exProj env R D 0).1.success = false)) :=
  C4_strategy4_status exProj exStatus500 0 0 0 500 rfl
    ⟨"x2", rfl⟩ ⟨"x3", rfl⟩ rfl

/-- A successful pass of strategies 2-4 yields a result carrying the
project's name, success, the elapsed time measured from `start` to the
moment the successful call returned, and the message of the strategy
that fired. -/
lemma runStrategies234_ok (p : ProjectConfig) (a : AttemptEnv)
    (k start clock : Nat) (res : PingResult) (cc : Nat) (tr : List Event)
    (h : runStrategies234 p a k start clock = (Except.ok res, cc, tr)) :
    res.project_name = p.name ∧ res.success = true ∧
    res.response_time_ms = some (cc - start) ∧
    (res.message = "Successfully queried auth.users table" ∨
     res.message = "Successfully checked auth session" ∨
     (∃ code, (code = 200 ∨ code = 401 ∨ code = 403) ∧
       res.message = "Successfully pinged REST API (status: " ++ toString code ++ ")")) := by
  cases hs2 : a.s2 with
  | ok =>
    simp only [runStrategies234, hs2, Prod.mk.injEq, Except.ok.injEq] at h
    obtain ⟨hres, hc, htr⟩ := h
    subst hres
    subst hc
    exact ⟨rfl, rfl, rfl, Or.inl rfl⟩
  | exn m2 =>
    cases hs3 : a.s3 with
    | ok =>
      simp only [runStrategies234, hs2, hs3, Prod.mk.injEq, Except.ok.injEq] at h
      obtain ⟨hres, hc, htr⟩ := h
      subst hres
      subst hc
      exact ⟨rfl, rfl, rfl, Or.inr (Or.inl rfl)⟩
    | exn m3 =>
      cases hs4 : a.s4 with
      | ok code =>
        by_cases hcode : code = 200 ∨ code = 401 ∨ code = 403
        · simp only [runStrategies234, hs2, hs3, hs4, if_pos hcode,
            Prod.mk.injEq, Except.ok.injEq] at h
          obtain ⟨hres, hc, htr⟩ := h
          subst hres
          subst hc
          exact ⟨rfl, rfl, rfl, Or.inr (Or.inr ⟨code, hcode, rfl⟩)⟩
        · simp only [runStrategies234, hs2, hs3, hs4, if_neg hcode,
            Prod.mk.injEq] at h
          exact absurd h.1 (by simp)
      | error m4 =>
        simp only [runStrategies234, hs2, hs3, hs4, Prod.mk.injEq] at h
        exact absurd h.1 (by simp)

/-- A successful attempt yields a result carrying the project's name,
success, the elapsed time measured from `start`, and a message
describing the strategy that succeeded. -/
lemma runAttempt_ok (p : ProjectConfig) (a : AttemptEnv)
    (k start clock : Nat) (res : PingResult) (cc : Nat) (tr : List Event)
    (h : runAttempt p a k start clock = (Except.ok res, cc, tr)) :
    res.project_name = p.name ∧ res.success = true ∧
    res.response_time_ms = some (cc - start) ∧
    describesStrategy p res.message := by
  cases hpt : p.table with
  | none =>
    rw [runAttempt_none p a k start clock hpt] at h
    have hh := runStrategies234_ok p a k start clock res cc tr h
    exact ⟨hh.1, hh.2.1, hh.2.2.1, Or.inr hh.2.2.2⟩
  | some t =>
    by_cases ht : t = ""
    · subst ht
      rw [runAttempt_some_empty p a k start clock hpt] at h
      have hh := runStrategies234_ok p a k start clock res cc tr h
      exact ⟨hh.1, hh.2.1, hh.2.2.1, Or.inr hh.2.2.2⟩
    · rw [runAttempt_some p a k start clock t hpt ht] at h
      cases hs1 : a.s1 with
      | ok =>
        simp only [runStrategy1, hs1, Prod.mk.injEq, Except.ok.injEq] at h
        obtain ⟨hres, hc, htr⟩ := h
        subst hres
        subst hc
        exact ⟨rfl, rfl, rfl, Or.inl ⟨t, hpt, rfl⟩⟩
      | exn m =>
        simp only [runStrategy1, hs1, Prod.mk.injEq] at h
        exact absurd h.1 (by simp)

/-- Every success result of the retry loop records its elapsed time as
the difference between the loop's final clock and the `start` taken
before the first attempt, and its message names the strategy. -/
lemma pingLoop_success (p : ProjectConfig) (env : Nat → AttemptEnv)
    (R D start : Nat) :
    ∀ fuel k clock,
      (pingLoop p env R D start fuel k clock).1.success = true →
      (pingLoop p env R D start fuel k clock).1.response_time_ms =
        some ((pingLoop p env R D start fuel k clock).2.1 - start) ∧
      describesStrategy p (pingLoop p env R D start fuel k clock).1.message := by
  intro fuel
  induction fuel with
  | zero =>
    intro k clock h
    simp [pingLoop] at h
  | succ n ih =>
    intro k clock h
    rcases hru : runAttempt p (env k) k start clock with ⟨er, cc, tr⟩
    cases er with
    | ok res =>
      have hres := runAttempt_ok p (env k) k start clock res cc tr hru
      simp only [pingLoop, hru]
      exact ⟨hres.2.2.1, hres.2.2.2⟩
    | error e =>
      by_cases hk : k < R - 1
      · simp only [pingLoop, hru, if_pos hk] at h ⊢
        exact ih (k + 1) (cc + D * 1000) h
      · simp only [pingLoop, hru, if_neg hk] at h
        cases h

/-- Every result of the retry loop carries the project's name. -/
lemma pingLoop_name (p : ProjectConfig) (env : Nat → AttemptEnv)
    (R D start : Nat) :
    ∀ fuel k clock,
      (pingLoop p env R D start fuel k clock).1.project_name = p.name := by
  intro fuel
  induction fuel with
  | zero => intro k clock; rfl
  | succ n ih =>
    intro k clock
    rcases hru : runAttempt p (env k) k start clock with ⟨er, cc, tr⟩
    cases er with
    | ok res =>
      have hres := runAttempt_ok p (env k) k start clock res cc tr hru
      simp only [pingLoop, hru]
      exact hres.1
    | error e =>
      by_cases hk : k < R - 1
      · simp only [pingLoop, hru, if_pos hk]
        exact ih (k + 1) (cc + D * 1000)
      · simp only [pingLoop, hru, if_neg hk]

/-- C5 (amended): whenever the probe chain returns a success outcome, its
elapsed-time field equals the time elapsed since the start of the first
attempt (the `start_time` taken before the retry loop) -- so it includes
time spent in earlier failed attempts and in retry-delay sleeps -- and
its message describes which strategy succeeded. -/
theorem C5_success_elapsed_and_message (p : ProjectConfig)
    (env : Nat → AttemptEnv) (R D start : Nat)
    (hs : (pingProject p env R D start).1.success = true) :
    (pingProject p env R D start).1.response_time_ms =
      some ((pingProject p env R D start).2.1 - start) ∧
    describesStrategy p (pingProject p env R D start).1.message :=
  pingLoop_success p env R D start R 0 start hs

/-- C5 witness: success at the second attempt after a failed first
attempt and a 1-second retry sleep; the elapsed field spans the whole
probe. -/
theorem C5_witness :
    (pingProject exProj envFirstFails 2 1 0).1.response_time_ms =
      some ((pingProject exProj envFirstFails 2 1 0).2.1 - 0) ∧
    describesStrategy exProj (pingProject exProj envFirstFails 2 1 0).1.message :=
  C5_success_elapsed_and_message exProj envFirstFails 2 1 0 rfl

/-- C5 counterexample to the claim as stated: the probe succeeds at
attempt 2 via strategy 2, whose calls on that attempt take 5 ms in
total, yet the returned elapsed-time field is 1020 ms (15 ms of failed
attempt 1, a 1000 ms retry sleep, then 5 ms of attempt 2), refuting
"equals the time elapsed since the start of that attempt k, not
including time spent in earlier failed attempts or in the retry-delay
sleeps". -/
theorem C5_counterexample :
    (pingProject exProj envFirstFails 2 1 0).1.success = true ∧
    (pingProject exProj envFirstFails 2 1 0).1.response_time_ms = some 1020 ∧
    some (1020 : Nat) ≠ some (5 : Nat) :=
  ⟨rfl, rfl, by decide⟩

/-- The fan-out runs one probe per project, in order. -/
lemma pingEach_length (env : Nat → Nat → AttemptEnv) (R D : Nat) :
    ∀ (ps : List ProjectConfig) (i : Nat),
      (pingEach env R D ps i).length = ps.length := by
  intro ps
  induction ps with
  | nil => intro i; rfl
  | cons p t ih => intro i; simp [pingEach, ih]

/-- The fan-out's results carry the projects' names, positionally. -/
lemma pingEach_names (env : Nat → Nat → AttemptEnv) (R D : Nat) :
    ∀ (ps : List ProjectConfig) (i : Nat),
      (pingEach env R D ps i).map (fun r => r.1.project_name) =
        ps.map (fun p => p.name) := by
  intro ps
  induction ps with
  | nil => intro i; rfl
  | cons p t ih =>
    intro i
    simp only [pingEach, List.map_cons, ih]
    rw [pingProject, pingLoop_name]

/-- In a duplicate-free list, exactly one entry equals any given member. -/
lemma countP_eq_one_of_nodup {α : Type} [DecidableEq α] :
    ∀ (l : List α), l.Nodup → ∀ a ∈ l, l.countP (fun x => x = a) = 1 := by
  intro l
  induction l with
  | nil => intro _ a ha; cases ha
  | cons b t ih =>
    intro hnd a ha
    have hbt : b ∉ t := (List.nodup_cons.mp hnd).1
    have hndt : t.Nodup := (List.nodup_cons.mp hnd).2
    rcases List.mem_cons.mp ha with hab | hat
    · subst hab
      have hz : t.countP (fun x => x = a) = 0 := by
        rw [List.countP_eq_zero]
        intro x hx
        simp only [decide_eq_true_eq]
        intro hxa
        exact hbt (hxa ▸ hx)
      simp [List.countP_cons, hz]
    · have hba : ¬ (b = a) := fun hba => hbt (hba ▸ hat)
      simp [List.countP_cons, hba, ih hndt a hat]

/-- Counting results by name equals counting in the name projection. -/
lemma filter_name_length (l : List PingResult) (s : String) :
    (l.filter (fun r => r.project_name = s)).length =
      (l.map (fun r => r.project_name)).countP (fun x => x = s) := by
  induction l with
  | nil => rfl
  | cons a t ih =>
    by_cases h : a.project_name = s <;>
      simp [List.filter_cons, List.countP_cons, h, ih]

/-- C2 (amended): over any list of enabled targets with more than one
entry and pairwise-distinct names, `ping_all` returns exactly one
outcome per target -- the result list has the same length as the target
list and each target's name appears in exactly one outcome -- whatever
each individual probe does. -/
theorem C2_fanout_one_outcome_per_target (cfg : Config)
    (env : Nat → Nat → AttemptEnv) (nc : Bool)
    (hN : 1 < cfg.get_enabled_projects.length)
    (hnd : (cfg.get_enabled_projects.map (fun p => p.name)).Nodup) :
    (ping_all cfg env nc).results.length = cfg.get_enabled_projects.length ∧
    ∀ q ∈ cfg.get_enabled_projects,
      ((ping_all cfg env nc).results.filter
        (fun r => r.project_name = q.name)).length = 1 := by
  have hne : cfg.get_enabled_projects ≠ [] := by
    intro h
    rw [h] at hN
    simp at hN
  have hres : (ping_all cfg env nc).results =
      (pingEach env cfg.retry_attempts cfg.retry_delay
        cfg.get_enabled_projects 0).map (fun r => r.1) := by
    simp only [ping_all, if_neg hne]
  constructor
  · rw [hres, List.length_map, pingEach_length]
  · intro q hq
    rw [hres, filter_name_length, List.map_map]
    have hnames : (pingEach env cfg.retry_attempts cfg.retry_delay
        cfg.get_enabled_projects 0).map
          ((fun r => r.project_name) ∘ (fun r => r.1)) =
        cfg.get_enabled_projects.map (fun p => p.name) :=
      pingEach_names env cfg.retry_attempts cfg.retry_delay
        cfg.get_enabled_projects 0
    rw [hnames]
    exact countP_eq_one_of_nodup _ hnd q.name (List.mem_map_of_mem _ hq)

/-- C2 witness: two enabled targets with distinct names, every probe
failing: two outcomes, one per name. -/
theorem C2_witness :
    (ping_all exCfgAB (fun _ _ => exAllFail) false).results.length =
      exCfgAB.get_enabled_projects.length ∧
    ∀ q ∈ exCfgAB.get_enabled_projects,
      ((ping_all exCfgAB (fun _ _ => exAllFail) false).results.filter
        (fun r => r.project_name = q.name)).length = 1 :=
  C2_fanout_one_outcome_per_target exCfgAB (fun _ _ => exAllFail) false
    (by decide) (by decide)

/-- C2 counterexample to the claim as stated: with two enabled targets
that share the name "Alpha", that target name appears in two outcomes,
not exactly one. -/
theorem C2_counterexample :
    1 < exCfgDup.get_enabled_projects.length ∧
    ((ping_all exCfgDup (fun _ _ => exS2ok) false).results.filter
      (fun r => r.project_name = "Alpha")).length = 2 ∧
    (2 : Nat) ≠ 1 :=
  ⟨by decide, by decide, by decide⟩

/-- C10: a non-empty project list with every project disabled: validation
does not abort the cycle, yet `run_once` returns `(0, 0)`, runs no probe
and dispatches no notification, because `ping_all` returns the empty
list before reaching notification dispatch. -/
theorem C10_all_disabled_empty_cycle (cfg : Config)
    (env : Nat → Nat → AttemptEnv) (nc : Bool)
    (hne : cfg.projects ≠ [])
    (hdis : ∀ p ∈ cfg.projects, p.enabled = false)
    (hval : ∀ p ∈ cfg.projects, postInitErr p = none) :
    (run_once cfg env nc).abortedEarly = false ∧
    (run_once cfg env nc).summary = (0, 0) ∧
    (run_once cfg env nc).traces = [] ∧
    (run_once cfg env nc).notif = none := by
  have hmem : ∀ e ∈ cfg.validate, strContains e "No projects" = false := by
    intro e he
    unfold Config.validate at he
    rw [if_neg hne] at he
    rw [List.nil_append] at he
    rcases List.mem_append.mp he with h12 | h4
    · rcases List.mem_append.mp h12 with h1 | h3
      · obtain ⟨a, ha, hae⟩ := List.mem_filterMap.mp h1
        rw [hval a ha] at hae
        cases hae
      · by_cases hi : cfg.interval_hours ≤ 0
        · rw [if_pos hi] at h3
          simp only [List.mem_singleton] at h3
          subst h3
          decide
        · rw [if_neg hi] at h3
          cases h3
    · by_cases hj : cfg.interval_hours > 168
      · rw [if_pos hj] at h4
        simp only [List.mem_singleton] at h4
        subst h4
        decide
      · rw [if_neg hj] at h4
        cases h4
  have hanyf : cfg.validate.any (fun e => strContains e "No projects") = false := by
    cases hany : cfg.validate.any (fun e => strContains e "No projects") with
    | false => rfl
    | true =>
      obtain ⟨x, hx, hpx⟩ := List.any_eq_true.mp hany
      rw [hmem x hx] at hpx
      cases hpx
  have hena : cfg.get_enabled_projects = [] := by
    unfold Config.get_enabled_projects
    rw [List.filter_eq_nil_iff]
    intro p hp
    simp [hdis p hp]
  simp [run_once, hanyf, ping_all, hena]

/-- C10 witness: one valid but disabled project, with a notifier
configured. -/
theorem C10_witness :
    (run_once exCfgOff (fun _ _ => exS2ok) true).abortedEarly = false ∧
    (run_once exCfgOff (fun _ _ => exS2ok) true).summary = (0, 0) ∧
    (run_once exCfgOff (fun _ _ => exS2ok) true).traces = [] ∧
    (run_once exCfgOff (fun _ _ => exS2ok) true).notif = none :=
  C10_all_disabled_empty_cycle exCfgOff (fun _ _ => exS2ok) true
    (by decide) (by decide) (by decide)

/-- Once the running flag is false, the wait loop exits immediately:
no events, flag stays false, and the exit index is the current one. -/
lemma daemonLoop_stopped :
    ∀ (l : List IterInput) (i : Nat), daemonLoop l false i = ([], false, i) := by
  intro l i
  cases l <;> simp [daemonLoop]

/-- Behaviour of the wait loop from the first iteration that receives a
termination signal: the running flag ends false, the loop exits no later
than the next iteration's check, no cycle with a later iteration index
ever starts, a signal seen at the loop check prevents that iteration's
cycle from starting, and a signal arriving during the iteration leaves
its in-flight cycle to complete (its `cycleEnd` is in the trace). -/
lemma daemonLoop_signal :
    ∀ (inputs : List IterInput) (i0 i : Nat),
      i < inputs.length →
      (∀ j, j < i → (inputs.getD j ⟨false, false, false⟩).signalled = false) →
      (inputs.getD i ⟨false, false, false⟩).signalled = true →
      (daemonLoop inputs true i0).2.1 = false ∧
      (daemonLoop inputs true i0).2.2 ≤ i0 + i + 1 ∧
      (∀ j, i0 + i < j → SchedEv.cycleStart j ∉ (daemonLoop inputs true i0).1) ∧
      ((inputs.getD i ⟨false, false, false⟩).sigBefore = true →
        SchedEv.cycleStart (i0 + i) ∉ (daemonLoop inputs true i0).1) ∧
      ((inputs.getD i ⟨false, false, false⟩).sigBefore = false →
        (inputs.getD i ⟨false, false, false⟩).jobDue = true →
        SchedEv.cycleEnd (i0 + i) ∈ (daemonLoop inputs true i0).1) := by
  intro inputs
  induction inputs with
  | nil =>
    intro i0 i hi
    exact absurd hi (Nat.not_lt_zero i)
  | cons inp rest ih =>
    intro i0 i hi hfirst hsig
    cases i with
    | zero =>
      rw [List.getD_cons_zero] at hsig
      rw [List.getD_cons_zero]
      by_cases hb : inp.sigBefore = true
      · have hloop : daemonLoop (inp :: rest) true i0 = ([], false, i0) := by
          simp [daemonLoop, hb]
        rw [hloop]
        refine ⟨rfl, by show i0 ≤ i0 + 0 + 1; omega, ?_, ?_, ?_⟩
        · intro j _ hj
          cases hj
        · intro _ hj
          cases hj
        · intro hb2
          exact absurd hb2 (by simp [hb])
      · have hbf : inp.sigBefore = false := by
          cases hbv : inp.sigBefore
          · rfl
          · exact absurd hbv hb
        have hd : inp.sigDuring = true := by
          have := hsig
          rw [IterInput.signalled, hbf] at this
          simpa using this
        have hloop : daemonLoop (inp :: rest) true i0 =
            ((if inp.jobDue then [SchedEv.cycleStart i0, SchedEv.cycleEnd i0]
              else []) ++ [SchedEv.sleepPoll i0], false, i0 + 1) := by
          simp [daemonLoop, hbf, hd, daemonLoop_stopped]
        rw [hloop]
        refine ⟨rfl, by show i0 + 1 ≤ i0 + 0 + 1; omega, ?_, ?_, ?_⟩
        · intro j hj
          by_cases hjob : inp.jobDue = true <;> simp [hjob] <;> omega
        · intro hb2
          exact absurd hb2 (by simp [hbf])
        · intro _ hjob
          simp [hjob]
    | succ m =>
      have hh : inp.signalled = false := by
        have := hfirst 0 (Nat.succ_pos m)
        rwa [List.getD_cons_zero] at this
      have hbf : inp.sigBefore = false := by
        have := hh
        rw [IterInput.signalled] at this
        exact (Bool.or_eq_false_iff.mp this).1
      have hdf : inp.sigDuring = false := by
        have := hh
        rw [IterInput.signalled] at this
        exact (Bool.or_eq_false_iff.mp this).2
      rw [List.getD_cons_succ] at hsig
      rw [List.getD_cons_succ]
      have hloop : daemonLoop (inp :: rest) true i0 =
          ((if inp.jobDue then [SchedEv.cycleStart i0, SchedEv.cycleEnd i0]
            else []) ++ SchedEv.sleepPoll i0 :: (daemonLoop rest true (i0 + 1)).1,
           (daemonLoop rest true (i0 + 1)).2.1,
           (daemonLoop rest true (i0 + 1)).2.2) := by
        simp [daemonLoop, hbf, hdf]
      have hrec := ih (i0 + 1) m (by simpa using hi)
        (fun j hj => by
          have := hfirst (j + 1) (by omega)
          rwa [List.getD_cons_succ] at this)
        hsig
      rw [hloop]
      refine ⟨hrec.1, ?_, ?_, ?_, ?_⟩
      · show (daemonLoop rest true (i0 + 1)).2.2 ≤ i0 + (m + 1) + 1
        have := hrec.2.1
        omega
      · intro j hj
        have hnotnext : SchedEv.cycleStart j ∉ (daemonLoop rest true (i0 + 1)).1 :=
          hrec.2.2.1 j (by omega)
        by_cases hjob : inp.jobDue = true <;> simp [hjob, hnotnext] <;> omega
      · intro hb2
        have harr : i0 + 1 + m = i0 + (m + 1) := by omega
        have hnotnext : SchedEv.cycleStart (i0 + (m + 1)) ∉
            (daemonLoop rest true (i0 + 1)).1 := by
          rw [← harr]
          exact hrec.2.2.2.1 hb2
        by_cases hjob : inp.jobDue = true <;> simp [hjob, hnotnext] <;> omega
      · intro hb2 hjob
        have harr : i0 + 1 + m = i0 + (m + 1) := by omega
        have hin : SchedEv.cycleEnd (i0 + (m + 1)) ∈
            (daemonLoop rest true (i0 + 1)).1 := by
          rw [← harr]
          exact hrec.2.2.2.2 hb2 hjob
        by_cases hjob2 : inp.jobDue = true <;> simp [hjob2, hin]

/-- C9: in the daemon wait loop, from the first iteration `i` at which a
termination signal is received: the running flag ends false, the loop
exits at the next flag check (no later than iteration `i + 1`, one
polling period), no cycle of any later iteration is ever started, a
signal already seen at the loop check stops iteration `i`'s cycle from
starting, and a signal landing during iteration `i` leaves the in-flight
cycle to run to completion. -/
theorem C9_graceful_shutdown (inputs : List IterInput) (i : Nat)
    (hi : i < inputs.length)
    (hfirst : ∀ j, j < i → (inputs.getD j ⟨false, false, false⟩).signalled = false)
    (hsig : (inputs.getD i ⟨false, false, false⟩).signalled = true) :
    (daemonLoop inputs true 0).2.1 = false ∧
    (daemonLoop inputs true 0).2.2 ≤ i + 1 ∧
    (∀ j, i < j → SchedEv.cycleStart j ∉ (daemonLoop inputs true 0).1) ∧
    ((inputs.getD i ⟨false, false, false⟩).sigBefore = true →
      SchedEv.cycleStart i ∉ (daemonLoop inputs true 0).1) ∧
    ((inputs.getD i ⟨false, false, false⟩).sigBefore = false →
      (inputs.getD i ⟨false, false, false⟩).jobDue = true →
      SchedEv.cycleEnd i ∈ (daemonLoop inputs true 0).1) := by
  have h := daemonLoop_signal inputs 0 i hi hfirst hsig
  simpa using h

/-- C9 witness: one iteration with a cycle due and a signal arriving
during it: the cycle completes, the flag ends false, and the loop exits
at the next check. -/
theorem C9_witness :
    (daemonLoop [⟨false, true, true⟩] true 0).2.1 = false ∧
    (daemonLoop [⟨false, true, true⟩] true 0).2.2 ≤ 0 + 1 ∧
    (∀ j, 0 < j →
      SchedEv.cycleStart j ∉ (daemonLoop [⟨false, true, true⟩] true 0).1) ∧
    ((([⟨false, true, true⟩] : List IterInput).getD 0
        ⟨false, false, false⟩).sigBefore = true →
      SchedEv.cycleStart 0 ∉ (daemonLoop [⟨false, true, true⟩] true 0).1) ∧
    ((([⟨false, true, true⟩] : List IterInput).getD 0
        ⟨false, false, false⟩).sigBefore = false →
      (([⟨false, true, true⟩] : List IterInput).getD 0
        ⟨false, false, false⟩).jobDue = true →
      SchedEv.cycleEnd 0 ∈ (daemonLoop [⟨false, true, true⟩] true 0).1) :=
  C9_graceful_shutdown [⟨false, true, true⟩] 0 (by decide)
    (fun j hj => absurd hj (Nat.not_lt_zero j)) (by decide)
